import Mathlib

/-
Verification of the expense-entry workflow in src/main.py.

The Python program is shallowly embedded.  Each function of main.py
(main, get_fiscal_year, exec_command, select_expense_type,
enter_expense_amount, enter_expense_memo, confirmation, toast, notify)
becomes a Lean definition.  External effects (the termux-dialog
subprocesses, the spreadsheet collaborator, the notification
subprocesses) are supplied through an explicit environment record, and
the calls the program makes to them are recorded in an event trace.
-/

namespace Expense

/-- Values produced by Python json.loads.  Floating point literals are
kept as their lexeme: no caller of exec_command in main.py performs
float arithmetic, so only the lexeme's identity matters. -/
inductive Json where
  | null
  | bool (b : Bool)
  | num (n : Int)
  | float (lexeme : String)
  | str (s : String)
  | arr (elems : List Json)
  | obj (fields : List (String × Json))

/-- JSON whitespace accepted between tokens by json.loads. -/
def isJsonWs (c : Char) : Bool :=
  c = ' ' || c = '\t' || c = '\n' || c = '\r'

/-- Drop leading JSON whitespace. -/
def skipWs (input : List Char) : List Char :=
  match input with
  | c :: rest => if isJsonWs c then skipWs rest else input
  | [] => input

/-- Value of a hexadecimal digit character, if any (code points 48-57
are the decimal digits, 97-102 and 65-70 the lowercase and uppercase
letter digits). -/
def hexDigitVal (c : Char) : Option Nat :=
  let n := c.toNat
  if 48 ≤ n ∧ n ≤ 57 then some (n - 48)
  else if 97 ≤ n ∧ n ≤ 102 then some (n - 87)
  else if 65 ≤ n ∧ n ≤ 70 then some (n - 55)
  else none

/-- Body of a JSON string literal, after the opening quote: returns the
decoded string and the remaining input.  Unescaped control characters
are rejected, as json.loads does in its default strict mode. -/
def parseStrBody (acc : List Char) : List Char → Option (String × List Char)
  | [] => none
  | '"' :: rest => some (String.mk acc.reverse, rest)
  | '\\' :: '"' :: r => parseStrBody ('"' :: acc) r
  | '\\' :: '\\' :: r => parseStrBody ('\\' :: acc) r
  | '\\' :: '/' :: r => parseStrBody ('/' :: acc) r
  | '\\' :: 'b' :: r => parseStrBody ('\x08' :: acc) r
  | '\\' :: 'f' :: r => parseStrBody ('\x0c' :: acc) r
  | '\\' :: 'n' :: r => parseStrBody ('\n' :: acc) r
  | '\\' :: 'r' :: r => parseStrBody ('\r' :: acc) r
  | '\\' :: 't' :: r => parseStrBody ('\t' :: acc) r
  | '\\' :: 'u' :: a :: b :: c :: d :: r =>
    match hexDigitVal a, hexDigitVal b, hexDigitVal c, hexDigitVal d with
    | some x, some y, some z, some w =>
      parseStrBody (Char.ofNat (((x * 16 + y) * 16 + z) * 16 + w) :: acc) r
    | _, _, _, _ => none
  | '\\' :: _ => none
  | c :: rest => if c.toNat < 32 then none else parseStrBody (c :: acc) rest

/-- Longest leading run of ASCII digits, and the rest of the input. -/
def takeDigits (input : List Char) : List Char × List Char :=
  match input with
  | [] => ([], [])
  | c :: cs =>
    if c.isDigit then
      match takeDigits cs with
      | (ds, r) => (c :: ds, r)
    else ([], input)

/-- Numeric value of a list of ASCII digits, with an accumulator. -/
def digitsVal (acc : Nat) : List Char → Nat
  | [] => acc
  | c :: cs => digitsVal (acc * 10 + (c.toNat - 48)) cs

/-- Exponent suffix of a JSON number (after the e or E), with its sign. -/
def parseExpTail : List Char → Option (Int × List Char)
  | '-' :: r =>
    match takeDigits r with
    | ([], _) => none
    | (ds, rest) => some (-(digitsVal 0 ds : Int), rest)
  | '+' :: r =>
    match takeDigits r with
    | ([], _) => none
    | (ds, rest) => some ((digitsVal 0 ds : Int), rest)
  | r =>
    match takeDigits r with
    | ([], _) => none
    | (ds, rest) => some ((digitsVal 0 ds : Int), rest)

/-- A JSON number, following the grammar json.loads uses: an optional
minus sign, an integer part without leading zeros, an optional
fraction, an optional exponent.  A plain integer becomes Json.num; a
number with a fraction or exponent keeps its lexeme as Json.float. -/
def parseNumber (cs : List Char) : Option (Json × List Char) :=
  let signed : Bool × List Char :=
    match cs with
    | '-' :: r => (true, r)
    | r => (false, r)
  match takeDigits signed.2 with
  | ([], _) => none
  | (intDs, rest1) =>
    match intDs with
    | '0' :: _ :: _ => none
    | _ =>
      let fracStep : Option (List Char × List Char) :=
        match rest1 with
        | '.' :: r =>
          match takeDigits r with
          | ([], _) => none
          | (ds, rest) => some (ds, rest)
        | r => some ([], r)
      match fracStep with
      | none => none
      | some (fracDs, rest2) =>
        let expStep : Option (Bool × List Char) :=
          match rest2 with
          | 'e' :: r =>
            match parseExpTail r with
            | none => none
            | some (_, rest) => some (true, rest)
          | 'E' :: r =>
            match parseExpTail r with
            | none => none
            | some (_, rest) => some (true, rest)
          | r => some (false, r)
        match expStep with
        | none => none
        | some (hasExp, rest3) =>
          if fracDs.isEmpty && !hasExp then
            let n : Int := (digitsVal 0 intDs : Int)
            some (Json.num (if signed.1 then -n else n), rest3)
          else
            some (Json.float (String.mk (cs.take (cs.length - rest3.length))), rest3)

mutual

/-- One JSON value, by recursive descent with explicit fuel.  Mirrors
what json.loads accepts, including the non-standard NaN and Infinity
constants Python allows by default. -/
def parseValue : Nat → List Char → Option (Json × List Char)
  | 0, _ => none
  | fuel + 1, cs =>
    match skipWs cs with
    | 'n' :: 'u' :: 'l' :: 'l' :: r => some (Json.null, r)
    | 't' :: 'r' :: 'u' :: 'e' :: r => some (Json.bool true, r)
    | 'f' :: 'a' :: 'l' :: 's' :: 'e' :: r => some (Json.bool false, r)
    | 'N' :: 'a' :: 'N' :: r => some (Json.float "NaN", r)
    | 'I' :: 'n' :: 'f' :: 'i' :: 'n' :: 'i' :: 't' :: 'y' :: r =>
      some (Json.float "Infinity", r)
    | '-' :: 'I' :: 'n' :: 'f' :: 'i' :: 'n' :: 'i' :: 't' :: 'y' :: r =>
      some (Json.float "-Infinity", r)
    | '"' :: r =>
      match parseStrBody [] r with
      | none => none
      | some (s, rest) => some (Json.str s, rest)
    | '\x7b' :: r =>
      match skipWs r with
      | '\x7d' :: rest => some (Json.obj [], rest)
      | cs2 => parseObjField fuel [] cs2
    | '[' :: r =>
      match skipWs r with
      | ']' :: rest => some (Json.arr [], rest)
      | cs2 =>
        match parseValue fuel cs2 with
        | none => none
        | some (v, rest) => parseArrRest fuel [v] rest
    | cs1 => parseNumber cs1

/-- Remaining elements of a JSON array, after at least one element. -/
def parseArrRest : Nat → List Json → List Char → Option (Json × List Char)
  | 0, _, _ => none
  | fuel + 1, acc, cs =>
    match skipWs cs with
    | ',' :: r =>
      match parseValue fuel r with
      | none => none
      | some (v, rest) => parseArrRest fuel (v :: acc) rest
    | ']' :: r => some (Json.arr acc.reverse, r)
    | _ => none

/-- One key-value pair of a JSON object, then the rest of the object. -/
def parseObjField : Nat → List (String × Json) → List Char → Option (Json × List Char)
  | 0, _, _ => none
  | fuel + 1, acc, cs =>
    match skipWs cs with
    | '"' :: r =>
      match parseStrBody [] r with
      | none => none
      | some (k, r2) =>
        match skipWs r2 with
        | ':' :: r3 =>
          match parseValue fuel r3 with
          | none => none
          | some (v, r4) => parseObjRest fuel ((k, v) :: acc) r4
        | _ => none
    | _ => none

/-- Separator or closing brace inside a JSON object. -/
def parseObjRest : Nat → List (String × Json) → List Char → Option (Json × List Char)
  | 0, _, _ => none
  | fuel + 1, acc, cs =>
    match skipWs cs with
    | ',' :: r => parseObjField fuel acc r
    | '\x7d' :: r => some (Json.obj acc.reverse, r)
    | _ => none

end

/-- Python json.loads: one JSON document, with only whitespace around
it; anything else raises json.JSONDecodeError.  The fuel s.length + 1
is enough because every recursive descent step first consumes at least
one character of the input. -/
def jsonParse (s : String) : Option Json :=
  match parseValue (s.length + 1) s.data with
  | some (v, rest) => if (skipWs rest).isEmpty then some v else none
  | none => none

/-- Python exception classes raised by the embedded fragment of
main.py.  Only the class matters to main's control flow; the message
strings carried here are abbreviated where no claim depends on the
wording. -/
inductive PyError where
  | timeoutExpired
  | jsonDecodeError
  | keyError (key : String)
  | typeError
  | valueError (literal : String)
  | persistenceError (message : String)
  | subprocessError
  deriving Repr, DecidableEq

/-- Python str(e) of an exception, as used by main's top-level handler
when it builds the failure notification.  Messages abbreviate
CPython's wording; no claim depends on their exact text. -/
def pyErrMsg : PyError → String
  | PyError.timeoutExpired => "Command timed out after 30 seconds"
  | PyError.jsonDecodeError => "Expecting value: line 1 column 1 (char 0)"
  | PyError.keyError k => k
  | PyError.typeError => "type error"
  | PyError.valueError s => "invalid literal for int() with base 10: " ++ s
  | PyError.persistenceError m => m
  | PyError.subprocessError => "subprocess error"

/-- Python str() applied to a value loaded from JSON, as main.py does
with str(data["text"]).  The container cases abbreviate Python's repr
rendering; every dialog reply actually carries a string there, and no
claim depends on the container rendering. -/
def pyStr : Json → String
  | Json.str s => s
  | Json.num n => toString n
  | Json.bool true => "True"
  | Json.bool false => "False"
  | Json.null => "None"
  | Json.float lex => lex
  | Json.arr _ => "<list>"
  | Json.obj _ => "<dict>"

/-- Python dict lookup for a dict built by json.loads: a later
duplicate key overwrites an earlier one. -/
def lookupLastField (fields : List (String × Json)) (key : String) : Option Json :=
  fields.foldl (fun acc kv => if kv.1 = key then some kv.2 else acc) none

/-- Python subscript data["text"] as used on the gateway's reply: a
KeyError when the object lacks the key, a TypeError when the loaded
document is not an object. -/
def pyGetItem (data : Json) (key : String) : Except PyError Json :=
  match data with
  | Json.obj fields =>
    match lookupLastField fields key with
    | some v => Except.ok v
    | none => Except.error (PyError.keyError key)
  | _ => Except.error PyError.typeError

/-- Whitespace stripped by Python int() around the digits.  Python
strips every character for which str.isspace holds; the model covers
the ASCII whitespace characters plus the common non-ASCII spaces. -/
def isPyStripChar (c : Char) : Bool :=
  c = ' ' || c = '\t' || c = '\n' || c = '\r' || c = '\x0b' || c = '\x0c' ||
    c = ' ' || c = '　'

/-- Decimal value of a digit character accepted by Python int().
Python accepts every Unicode Nd digit; the model covers the ASCII
digits and the fullwidth forms as the non-ASCII representatives. -/
def pyDigitVal? (c : Char) : Option Nat :=
  let n := c.toNat
  if 48 ≤ n ∧ n ≤ 57 then some (n - 48)
  else if 65296 ≤ n ∧ n ≤ 65305 then some (n - 65296)
  else none

/-- Digits after the first one, allowing single underscores between
digits as Python int() does. -/
def pyDigitsLoop (acc : Nat) : List Char → Option Nat
  | [] => some acc
  | '_' :: c :: rest =>
    match pyDigitVal? c with
    | some d => pyDigitsLoop (acc * 10 + d) rest
    | none => none
  | '_' :: [] => none
  | c :: rest =>
    match pyDigitVal? c with
    | some d => pyDigitsLoop (acc * 10 + d) rest
    | none => none

/-- Unsigned digit string for Python int(): nonempty, starting with a
digit. -/
def pyIntCore : List Char → Option Nat
  | [] => none
  | c :: rest =>
    match pyDigitVal? c with
    | some d => pyDigitsLoop d rest
    | none => none

/-- Python int() applied to a string: optional surrounding whitespace,
an optional sign directly attached to the digits, then digits. -/
def pyInt (s : String) : Option Int :=
  let cs := List.dropWhile isPyStripChar s.data
  let cs := (List.dropWhile isPyStripChar cs.reverse).reverse
  match cs with
  | '+' :: rest => (pyIntCore rest).map (fun n => (n : Int))
  | '-' :: rest => (pyIntCore rest).map (fun n => -(n : Int))
  | rest => (pyIntCore rest).map (fun n => (n : Int))

/-- Truncation toward zero of a float lexeme, as Python int() applied
to the float.  int() raises on NaN and the infinities. -/
def floatTrunc? (lex : String) : Option Int :=
  if lex = "NaN" || lex = "Infinity" || lex = "-Infinity" then none
  else
    let signed : Bool × List Char :=
      match lex.data with
      | '-' :: r => (true, r)
      | r => (false, r)
    let (intDs, rest1) := takeDigits signed.2
    let fracStep : List Char × List Char :=
      match rest1 with
      | '.' :: r => takeDigits r
      | r => ([], r)
    let expVal : Int :=
      match fracStep.2 with
      | 'e' :: r => match parseExpTail r with | some (v, _) => v | none => 0
      | 'E' :: r => match parseExpTail r with | some (v, _) => v | none => 0
      | _ => 0
    let mant : Nat := digitsVal 0 (intDs ++ fracStep.1)
    let e : Int := expVal - (fracStep.1.length : Int)
    let mag : Nat := if 0 ≤ e then mant * 10 ^ e.toNat else mant / 10 ^ (-e).toNat
    some (if signed.1 then -(mag : Int) else (mag : Int))

/-- Python int() applied to the value loaded from the gateway's reply,
as in enter_expense_amount's int(data["text"]). -/
def pyIntOf : Json → Except PyError Int
  | Json.str s =>
    match pyInt s with
    | some n => Except.ok n
    | none => Except.error (PyError.valueError s)
  | Json.num n => Except.ok n
  | Json.bool b => Except.ok (if b then 1 else 0)
  | Json.float lex =>
    match floatTrunc? lex with
    | some n => Except.ok n
    | none => Except.error (PyError.valueError lex)
  | Json.null => Except.error PyError.typeError
  | Json.arr _ => Except.error PyError.typeError
  | Json.obj _ => Except.error PyError.typeError

/-- Outcome of one subprocess.run invocation of the dialog tool:
either the 30-second timeout expired, or the process terminated with
an exit code and a combined stdout-stderr text (main.py merges stderr
into stdout and decodes it as UTF-8). -/
inductive ProcResult where
  | timeout
  | completed (exitCode : Int) (stdout : String)
  deriving Repr, DecidableEq

/-- exec_command of main.py: runs the command with a 30 second
timeout, decodes the combined output and parses it with json.loads,
re-raising the json.JSONDecodeError on parse failure.  subprocess.run
is called without check=True, so the exit code is never consulted. -/
def exec_command (_command : List String) (res : ProcResult) : Except PyError Json :=
  match res with
  | ProcResult.timeout => Except.error PyError.timeoutExpired
  | ProcResult.completed _ stdout =>
    match jsonParse stdout with
    | none => Except.error PyError.jsonDecodeError
    | some data => Except.ok data

/-- Dialog title used by every prompt (TITLE in main.py). -/
def TITLE : String := "家計簿"

/-- Fixed closed category list offered by the sheet dialog. -/
def CATEGORY_OPTIONS : String :=
  "食費,交通費,遊興費,雑費,書籍費,医療費,家賃,光熱費,通信費,特別経費,給与,雑所得"

/-- Today's date, as far as get_fiscal_year consults it. -/
structure Date where
  year : Int
  month : Nat
  deriving Repr, DecidableEq

/-- get_fiscal_year of main.py: the calendar year, minus one when the
month is before April. -/
def get_fiscal_year (today : Date) : Int :=
  if today.month < 4 then today.year - 1 else today.year

/-- Argument list of the category sheet dialog. -/
def select_args : List String :=
  ["termux-dialog", "sheet", "-t", TITLE, "-v", CATEGORY_OPTIONS]

/-- Argument list of the amount entry dialog. -/
def amount_args (expense_type : String) : List String :=
  ["termux-dialog", "text", "-t", TITLE, "-i", expense_type ++ "の金額を入力", "-n"]

/-- Argument list of the memo entry dialog. -/
def memo_args (expense_type : String) : List String :=
  ["termux-dialog", "text", "-t", TITLE, "-i", expense_type ++ "のメモを入力"]

/-- Summary text of the confirm dialog, the f-string at line 165 of
main.py: the memo is inserted with a colon separator exactly when it
is non-empty (Python string truthiness). -/
def confirmationSummary (expense_type : String) (expense_amount : Int)
    (expense_memo : String) : String :=
  ("以下の内容で登録しますか？\n\t" ++ expense_type) ++
    (if expense_memo ≠ "" then ":" ++ expense_memo else "") ++
    (", " ++ toString expense_amount ++ "円")

/-- Argument list of the confirm dialog. -/
def confirm_args (expense_type : String) (expense_amount : Int)
    (expense_memo : String) : List String :=
  ["termux-dialog", "confirm", "-t", TITLE, "-i",
    confirmationSummary expense_type expense_amount expense_memo]

/-- select_expense_type of main.py: run the sheet dialog and take
str(data["text"]) verbatim as the category. -/
def select_expense_type (p : ProcResult) : Except PyError String :=
  match exec_command select_args p with
  | Except.error e => Except.error e
  | Except.ok data =>
    match pyGetItem data "text" with
    | Except.error e => Except.error e
    | Except.ok t => Except.ok (pyStr t)

/-- enter_expense_amount of main.py: run the numeric text dialog and
apply int() to data["text"]. -/
def enter_expense_amount (expense_type : String) (p : ProcResult) :
    Except PyError Int :=
  match exec_command (amount_args expense_type) p with
  | Except.error e => Except.error e
  | Except.ok data =>
    match pyGetItem data "text" with
    | Except.error e => Except.error e
    | Except.ok v => pyIntOf v

/-- enter_expense_memo of main.py: run the text dialog and take
str(data["text"]) verbatim, the empty string included. -/
def enter_expense_memo (expense_type : String) (p : ProcResult) :
    Except PyError String :=
  match exec_command (memo_args expense_type) p with
  | Except.error e => Except.error e
  | Except.ok data =>
    match pyGetItem data "text" with
    | Except.error e => Except.error e
    | Except.ok v => Except.ok (pyStr v)

/-- confirmation of main.py: run the confirm dialog and compare
str(data["text"]) against the literal "yes". -/
def confirmation (expense_type : String) (expense_amount : Int)
    (expense_memo : String) (p : ProcResult) : Except PyError Bool :=
  match exec_command (confirm_args expense_type expense_amount expense_memo) p with
  | Except.error e => Except.error e
  | Except.ok data =>
    match pyGetItem data "text" with
    | Except.error e => Except.error e
    | Except.ok choice => Except.ok (pyStr choice == "yes")

/-- Toast text built at line 45 of main.py, via the same f-string
shape as the confirmation summary. -/
def toastContent (expense_type : String) (expense_amount : Int)
    (expense_memo : String) : String :=
  ("家計簿への登録が完了しました。 " ++ expense_type) ++
    (if expense_memo ≠ "" then ":" ++ expense_memo else "") ++
    (", " ++ toString expense_amount ++ "円")

/-- Title of the failure notification sent by main's except handler. -/
def ALERT_TITLE : String := "🚫家計簿の登録に失敗しました。"

/-- Externally visible calls main.py makes during one session: the
four dialog invocations, the persistence call (GspreadHandler
construction plus register_expense), the toast and the
notification. -/
inductive Event where
  | dialog (args : List String)
  | registerCall (bookname expense_type : String) (expense_amount : Int)
      (expense_memo : String)
  | toastCall (content : String)
  | notifyCall (title content : String)
  deriving Repr, DecidableEq

/-- Behaviour of the external world during one session: today's date,
the outcome of each of the four dialog subprocesses, whether the
persistence collaborator raises (and with what message), and whether
the toast and notification subprocesses complete without raising. -/
structure Env where
  today : Date
  selectProc : ProcResult
  amountProc : ProcResult
  memoProc : ProcResult
  confirmProc : ProcResult
  registerOutcome : Option String
  toastOk : Bool
  notifyOk : Bool
  deriving Repr, DecidableEq

/-- The except branch of main: notify(ALERT_TITLE, str(e)) then
log.exception.  The toast and notify bodies of main.py contain no
exception handling, so when the notification subprocess itself raises,
that new exception replaces the handled one and escapes main. -/
def endWithError (tr : List Event) (e : PyError) (env : Env) :
    List Event × Option PyError :=
  (tr ++ [Event.notifyCall ALERT_TITLE (pyErrMsg e)],
    if env.notifyOk then none else some PyError.subprocessError)

/-- main of main.py.  The first trace component lists the external
calls made, in order; the second component is the exception escaping
main, if any (none means main returned normally).  The registerCall
event stands for the persistence interaction: GspreadHandler(bookname)
followed by register_expense(expense_type, expense_amount,
expense_memo), whose failure env.registerOutcome reports. -/
def runMain (env : Env) : List Event × Option PyError :=
  let current_fiscal_year := get_fiscal_year env.today
  let bookname := "CF (" ++ toString current_fiscal_year ++ "年度)"
  match select_expense_type env.selectProc with
  | Except.error e => endWithError [Event.dialog select_args] e env
  | Except.ok expense_type =>
    match enter_expense_amount expense_type env.amountProc with
    | Except.error e =>
      endWithError
        [Event.dialog select_args, Event.dialog (amount_args expense_type)] e env
    | Except.ok expense_amount =>
      match enter_expense_memo expense_type env.memoProc with
      | Except.error e =>
        endWithError
          [Event.dialog select_args, Event.dialog (amount_args expense_type),
            Event.dialog (memo_args expense_type)] e env
      | Except.ok expense_memo =>
        let dialogs :=
          [Event.dialog select_args, Event.dialog (amount_args expense_type),
            Event.dialog (memo_args expense_type),
            Event.dialog (confirm_args expense_type expense_amount expense_memo)]
        match confirmation expense_type expense_amount expense_memo env.confirmProc with
        | Except.error e => endWithError dialogs e env
        | Except.ok res =>
          if res then
            let reg := Event.registerCall bookname expense_type expense_amount expense_memo
            match env.registerOutcome with
            | some msg =>
              endWithError (dialogs ++ [reg]) (PyError.persistenceError msg) env
            | none =>
              let content := toastContent expense_type expense_amount expense_memo
              if env.toastOk then
                (dialogs ++ [reg, Event.toastCall content], none)
              else
                endWithError (dialogs ++ [reg, Event.toastCall content])
                  PyError.subprocessError env
          else (dialogs, none)

/-- Recognizer for toast events. -/
def isToastCall : Event → Bool
  | Event.toastCall _ => true
  | _ => false

/-- Recognizer for notification events. -/
def isNotifyCall : Event → Bool
  | Event.notifyCall _ _ => true
  | _ => false

/-- Recognizer for persistence events. -/
def isRegisterCall : Event → Bool
  | Event.registerCall _ _ _ _ => true
  | _ => false

/-- Recognizer for dialog events. -/
def isDialogCall : Event → Bool
  | Event.dialog _ => true
  | _ => false

/-- Number of toast invocations in a trace. -/
def countToasts (tr : List Event) : Nat := (tr.filter isToastCall).length

/-- Number of notification invocations in a trace. -/
def countNotifies (tr : List Event) : Nat := (tr.filter isNotifyCall).length

/-- Number of persistence invocations in a trace. -/
def countRegisters (tr : List Event) : Nat := (tr.filter isRegisterCall).length

/-- Number of dialog invocations in a trace. -/
def countDialogs (tr : List Event) : Nat := (tr.filter isDialogCall).length

/-- The text value a dialog reply carries: the subprocess completed,
its output loaded as JSON, and data["text"] was present. -/
def textValue (p : ProcResult) : Option Json :=
  match p with
  | ProcResult.timeout => none
  | ProcResult.completed _ stdout =>
    match jsonParse stdout with
    | none => none
    | some data =>
      match pyGetItem data "text" with
      | Except.ok v => some v
      | Except.error _ => none

/-- The reply text a workflow step would extract from a dialog
outcome: str(data["text"]). -/
def responseText (p : ProcResult) : Option String := (textValue p).map pyStr

/-- The session reached the confirm dialog and the user answered with
the affirmative token.  Derived from main's control flow, to state
session-level properties. -/
def sessionConfirmed (env : Env) : Bool :=
  match select_expense_type env.selectProc with
  | Except.error _ => false
  | Except.ok t =>
    match enter_expense_amount t env.amountProc with
    | Except.error _ => false
    | Except.ok a =>
      match enter_expense_memo t env.memoProc with
      | Except.error _ => false
      | Except.ok m =>
        match confirmation t a m env.confirmProc with
        | Except.error _ => false
        | Except.ok res => res

/-- The session reached the confirm dialog and the user declined.
Derived from main's control flow, to state session-level claims. -/
def sessionCancelled (env : Env) : Bool :=
  match select_expense_type env.selectProc with
  | Except.error _ => false
  | Except.ok t =>
    match enter_expense_amount t env.amountProc with
    | Except.error _ => false
    | Except.ok a =>
      match enter_expense_memo t env.memoProc with
      | Except.error _ => false
      | Except.ok m =>
        match confirmation t a m env.confirmProc with
        | Except.error _ => false
        | Except.ok res => !res

/-- Decides whether pat occurs at the start of s. -/
def startsWithChars : List Char → List Char → Bool
  | [], _ => true
  | _ :: _, [] => false
  | p :: ps, c :: cs => p = c && startsWithChars ps cs

/-- Decides whether pat occurs anywhere in s. -/
def hasSubChars (pat : List Char) : List Char → Bool
  | [] => startsWithChars pat []
  | c :: cs => startsWithChars pat (c :: cs) || hasSubChars pat cs

/-- Substring test used to state the toast and summary claims. -/
def strContains (s pat : String) : Bool := hasSubChars pat.data s.data

/-- Environment of the end-to-end success scenario: date 2024-02-10,
category 食費, amount 800, empty memo, confirmation yes, every
external call succeeding. -/
def envYes : Env :=
  { today := ⟨2024, 2⟩,
    selectProc := ProcResult.completed 0 "\x7b\"text\": \"食費\"\x7d",
    amountProc := ProcResult.completed 0 "\x7b\"text\": \"800\"\x7d",
    memoProc := ProcResult.completed 0 "\x7b\"text\": \"\"\x7d",
    confirmProc := ProcResult.completed 0 "\x7b\"text\": \"yes\"\x7d",
    registerOutcome := none, toastOk := true, notifyOk := true }

/-- Same session, but the user answers no at the confirm dialog. -/
def envNo : Env :=
  { envYes with confirmProc := ProcResult.completed 0 "\x7b\"text\": \"no\"\x7d" }

/-- Same session, but the toast subprocess raises. -/
def envToastFail : Env := { envYes with toastOk := false }

/-- Same session, but the amount reply is the negative string -300. -/
def envNeg : Env :=
  { envYes with amountProc := ProcResult.completed 0 "\x7b\"text\": \"-300\"\x7d" }

/-- Same session, but the persistence collaborator raises, and the
toast subprocess would raise too if it were ever invoked. -/
def envRegFail : Env :=
  { envYes with registerOutcome := some "boom", toastOk := false }

/-- Helper: when the confirm dialog's reply carries the text c, the
confirmation step returns the comparison of c against the literal
"yes". -/
theorem confirmation_of_responseText (t : String) (a : Int) (m : String)
    (p : ProcResult) (c : String) (h : responseText p = some c) :
    confirmation t a m p = Except.ok (c == "yes") := by
  unfold responseText textValue at h
  cases p with
  | timeout => simp at h
  | completed code out =>
    dsimp only at h
    cases hj : jsonParse out with
    | none => rw [hj] at h; simp at h
    | some data =>
      rw [hj] at h
      dsimp only at h
      cases hg : pyGetItem data "text" with
      | error e => rw [hg] at h; simp at h
      | ok v =>
        rw [hg] at h
        simp at h
        subst h
        simp [confirmation, exec_command, hj, hg]

/-- Helper: when a dialog reply carries the value v in its text field,
the amount step is int() applied to that value. -/
theorem enter_amount_of_textValue (t : String) (p : ProcResult) (v : Json)
    (h : textValue p = some v) :
    enter_expense_amount t p = pyIntOf v := by
  unfold textValue at h
  cases p with
  | timeout => simp at h
  | completed code out =>
    dsimp only at h
    cases hj : jsonParse out with
    | none => rw [hj] at h; simp at h
    | some data =>
      rw [hj] at h
      dsimp only at h
      cases hg : pyGetItem data "text" with
      | error e => rw [hg] at h; simp at h
      | ok w =>
        rw [hg] at h
        simp at h
        subst h
        simp [enter_expense_amount, exec_command, hj, hg]

/-- C3: get_fiscal_year returns the calendar year minus one for months
1 to 3 and the calendar year itself for months 4 to 12; being a total
function of the date, it has no error cases. -/
theorem get_fiscal_year_spec (y : Int) (m : Nat) :
    ((m = 1 ∨ m = 2 ∨ m = 3) → get_fiscal_year ⟨y, m⟩ = y - 1) ∧
    (4 ≤ m → m ≤ 12 → get_fiscal_year ⟨y, m⟩ = y) := by
  constructor
  · rintro (rfl | rfl | rfl) <;> rfl
  · intro h4 _
    show (if m < 4 then y - 1 else y) = y
    rw [if_neg (by omega)]

/-- Witness for C3 at the months 2 and 4 of the year 2024. -/
theorem get_fiscal_year_spec_witness :
    get_fiscal_year ⟨2024, 2⟩ = 2024 - 1 ∧ get_fiscal_year ⟨2024, 4⟩ = 2024 :=
  ⟨(get_fiscal_year_spec 2024 2).1 (Or.inr (Or.inl rfl)),
    (get_fiscal_year_spec 2024 4).2 (by decide) (by decide)⟩

/-- C2: for every confirm reply carrying the text c, the confirmation
step returns True exactly when c is the literal "yes" (case-sensitive,
exact); every other string, "Yes", "y", "no" and the empty string
included, yields False. -/
theorem confirmation_committed_iff (t : String) (a : Int) (m : String)
    (p : ProcResult) (c : String) (h : responseText p = some c) :
    (confirmation t a m p = Except.ok true ↔ c = "yes") ∧
    (c ≠ "yes" → confirmation t a m p = Except.ok false) := by
  have he := confirmation_of_responseText t a m p c h
  rw [he]
  constructor
  · simp
  · intro hc
    simp [hc]

/-- Witness for C2 at the reply text Yes, which is not committed. -/
theorem confirmation_committed_iff_witness :
    confirmation "食費" 800 "" (ProcResult.completed 0 "\x7b\"text\": \"Yes\"\x7d") =
      Except.ok false :=
  (confirmation_committed_iff "食費" 800 ""
    (ProcResult.completed 0 "\x7b\"text\": \"Yes\"\x7d") "Yes" rfl).2 (by decide)

/-- C9: the confirm summary inserts the colon separator and the memo
exactly when the memo is non-empty; with the empty memo the separator
segment is omitted, and with the memo lunch the summary contains the
segment :lunch. -/
theorem confirmation_summary_memo :
    (∀ t a m, m ≠ "" → confirmationSummary t a m =
      ("以下の内容で登録しますか？\n\t" ++ t) ++ (":" ++ m) ++
        (", " ++ toString a ++ "円")) ∧
    (∀ t a, confirmationSummary t a "" =
      ("以下の内容で登録しますか？\n\t" ++ t) ++ (", " ++ toString a ++ "円")) ∧
    strContains (confirmationSummary "食費" 800 "lunch") ":lunch" = true ∧
    confirmationSummary "食費" 800 "" = "以下の内容で登録しますか？\n\t食費, 800円" := by
  refine ⟨?_, ?_, by decide, by decide⟩
  · intro t a m hm
    simp [confirmationSummary, hm]
  · intro t a
    simp [confirmationSummary, String.append_empty]

/-- Witness for C9 at a non-empty memo. -/
theorem confirmation_summary_memo_witness :
    confirmationSummary "昼食" 500 "lunch" =
      ("以下の内容で登録しますか？\n\t" ++ "昼食") ++ (":" ++ "lunch") ++
        (", " ++ toString (500 : Int) ++ "円") :=
  confirmation_summary_memo.1 "昼食" 500 "lunch" (by decide)

/-- C5 counterexample: exec_command never consults the exit status of
the dialog subprocess, so a non-zero termination whose combined output
still parses as JSON is returned as a success, and a bare JSON scalar
that is not the expected object payload is also returned as a
success. -/
theorem exec_command_nonzero_exit_success :
    exec_command ["termux-dialog"] (ProcResult.completed 1 "\x7b\"text\": \"ok\"\x7d") =
      Except.ok (Json.obj [("text", Json.str "ok")]) ∧
    exec_command ["termux-dialog"] (ProcResult.completed 2 "5") =
      Except.ok (Json.num 5) :=
  ⟨rfl, rfl⟩

/-- C5 amended: a timeout raises the timeout error, output that does
not parse as JSON raises the decode error, and a success always
carries the parsed JSON document — never a silent empty-string
success; however the subordinate's termination status is not examined:
the classification depends only on the output text, so a non-zero
termination with JSON output is returned as a success. -/
theorem exec_command_error_spec (cmd : List String) :
    exec_command cmd ProcResult.timeout = Except.error PyError.timeoutExpired ∧
    (∀ code out, jsonParse out = none →
      exec_command cmd (ProcResult.completed code out) =
        Except.error PyError.jsonDecodeError) ∧
    (∀ code code2 out, exec_command cmd (ProcResult.completed code out) =
      exec_command cmd (ProcResult.completed code2 out)) ∧
    (∀ code out data, exec_command cmd (ProcResult.completed code out) =
      Except.ok data → jsonParse out = some data) := by
  refine ⟨rfl, ?_, ?_, ?_⟩
  · intro code out h
    simp [exec_command, h]
  · intro code code2 out
    rfl
  · intro code out data h
    simp only [exec_command] at h
    cases hj : jsonParse out with
    | none => rw [hj] at h; simp at h
    | some v => rw [hj] at h; simp at h; rw [h]

/-- Witness for C5 amended at unparseable output. -/
theorem exec_command_error_spec_witness :
    exec_command ["termux-dialog"] (ProcResult.completed 0 "oops") =
      Except.error PyError.jsonDecodeError :=
  (exec_command_error_spec ["termux-dialog"]).2.1 0 "oops" rfl

/-- C4: when the amount dialog reply carries the string s, a parseable
s yields exactly that integer as the amount, and an unparseable s
raises the ValueError, which aborts the whole workflow before any
persistence call, with a single failure alert and no re-prompt — only
the two dialogs already run appear in the trace. -/
theorem enter_amount_spec (t : String) (p : ProcResult) (s : String)
    (h : textValue p = some (Json.str s)) :
    (∀ n, pyInt s = some n → enter_expense_amount t p = Except.ok n) ∧
    (pyInt s = none →
      enter_expense_amount t p = Except.error (PyError.valueError s)) ∧
    (pyInt s = none → ∀ env : Env, env.amountProc = p →
      select_expense_type env.selectProc = Except.ok t →
      countRegisters (runMain env).1 = 0 ∧ countToasts (runMain env).1 = 0 ∧
      countNotifies (runMain env).1 = 1 ∧ countDialogs (runMain env).1 = 2) := by
  have hv := enter_amount_of_textValue t p (Json.str s) h
  refine ⟨?_, ?_, ?_⟩
  · intro n hn
    rw [hv]
    simp [pyIntOf, hn]
  · intro hn
    rw [hv]
    simp [pyIntOf, hn]
  · intro hn env hp hsel
    have herr : enter_expense_amount t env.amountProc =
        Except.error (PyError.valueError s) := by
      rw [hp, hv]
      simp [pyIntOf, hn]
    simp [runMain, hsel, herr, endWithError, countRegisters, countToasts,
      countNotifies, countDialogs, isRegisterCall, isToastCall, isNotifyCall,
      isDialogCall]

/-- Witness for C4 at the reply strings 1500 and abc. -/
theorem enter_amount_spec_witness :
    enter_expense_amount "食費" (ProcResult.completed 0 "\x7b\"text\": \"1500\"\x7d") =
      Except.ok 1500 ∧
    enter_expense_amount "食費" (ProcResult.completed 0 "\x7b\"text\": \"abc\"\x7d") =
      Except.error (PyError.valueError "abc") :=
  ⟨(enter_amount_spec "食費" (ProcResult.completed 0 "\x7b\"text\": \"1500\"\x7d")
      "1500" rfl).1 1500 rfl,
    (enter_amount_spec "食費" (ProcResult.completed 0 "\x7b\"text\": \"abc\"\x7d")
      "abc" rfl).2.1 rfl⟩

/-- C1: given that the three entry steps succeeded and the confirm
reply carries the text c, the completed entry is passed to the
persistence collaborator exactly when c is "yes"; any other
confirmation text ends the session with no persistence call, no toast,
no alert, and a normal return from main. -/
theorem registration_iff_confirmed_yes (env : Env) (t : String) (a : Int)
    (m : String) (c : String)
    (h1 : select_expense_type env.selectProc = Except.ok t)
    (h2 : enter_expense_amount t env.amountProc = Except.ok a)
    (h3 : enter_expense_memo t env.memoProc = Except.ok m)
    (h4 : responseText env.confirmProc = some c) :
    ((∃ bn, Event.registerCall bn t a m ∈ (runMain env).1) ↔ c = "yes") ∧
    (c ≠ "yes" → countRegisters (runMain env).1 = 0 ∧
      countToasts (runMain env).1 = 0 ∧ countNotifies (runMain env).1 = 0 ∧
      (runMain env).2 = none) := by
  have hc := confirmation_of_responseText t a m env.confirmProc c h4
  by_cases hy : c = "yes"
  · subst hy
    refine ⟨⟨fun _ => rfl, fun _ => ?_⟩, fun hne => absurd rfl hne⟩
    cases h5 : env.registerOutcome with
    | some msg =>
      simp [runMain, h1, h2, h3, hc, h5, endWithError]
    | none =>
      cases h6 : env.toastOk with
      | true => simp [runMain, h1, h2, h3, hc, h5, h6]
      | false => simp [runMain, h1, h2, h3, hc, h5, h6, endWithError]
  · have hcf : (c == "yes") = false := by
      simp [hy]
    constructor
    · rw [iff_false_intro hy]
      simp only [iff_false]
      intro hmem
      obtain ⟨bn, hbn⟩ := hmem
      simp [runMain, h1, h2, h3, hc, hcf] at hbn
    · intro _
      simp [runMain, h1, h2, h3, hc, hcf, countRegisters, countToasts,
        countNotifies, isRegisterCall, isToastCall, isNotifyCall]

/-- Witness for C1 at the end-to-end cancel scenario. -/
theorem registration_iff_confirmed_yes_witness :
    countRegisters (runMain envNo).1 = 0 ∧ countToasts (runMain envNo).1 = 0 ∧
    countNotifies (runMain envNo).1 = 0 ∧ (runMain envNo).2 = none :=
  (registration_iff_confirmed_yes envNo "食費" 800 "" "no"
    rfl rfl rfl rfl).2 (by decide)

/-- C6 counterexample: in a session where every step succeeds, the
user confirms, and registration succeeds, but the toast subprocess
raises, main invokes both the success toast and the failure alert, so
more than one of the two outcome notifications occurs in a single
session. -/
theorem outcome_notification_cex :
    countToasts (runMain envToastFail).1 = 1 ∧
    countNotifies (runMain envToastFail).1 = 1 := by decide

/-- C6 amended: provided the toast subprocess itself does not raise,
at most one of the two outcome notifications is invoked per session —
exactly one unless the user cancels at the confirm step, which invokes
neither; and unconditionally, when the persistence registration raises
in a confirmed session, exactly one alert and zero toasts are
invoked.  When the toast subprocess raises after a successful
registration, main's handler additionally invokes the failure alert,
as the counterexample exhibits.  The toast proviso guards only the
one-notification count; the register-raises conjunct holds for every
environment. -/
theorem outcome_notification_spec (env : Env) :
    (env.toastOk = true →
      countToasts (runMain env).1 + countNotifies (runMain env).1 =
        if sessionCancelled env then 0 else 1) ∧
    (∀ msg, env.registerOutcome = some msg → sessionConfirmed env = true →
      countNotifies (runMain env).1 = 1 ∧ countToasts (runMain env).1 = 0) := by
  constructor
  · intro h
    cases h1 : select_expense_type env.selectProc with
    | error e =>
      simp [runMain, sessionCancelled, h1, endWithError, countToasts,
        countNotifies, isToastCall, isNotifyCall]
    | ok t =>
      cases h2 : enter_expense_amount t env.amountProc with
      | error e =>
        simp [runMain, sessionCancelled, h1, h2, endWithError, countToasts,
          countNotifies, isToastCall, isNotifyCall]
      | ok a =>
        cases h3 : enter_expense_memo t env.memoProc with
        | error e =>
          simp [runMain, sessionCancelled, h1, h2, h3, endWithError,
            countToasts, countNotifies, isToastCall, isNotifyCall]
        | ok m =>
          cases h4 : confirmation t a m env.confirmProc with
          | error e =>
            simp [runMain, sessionCancelled, h1, h2, h3, h4, endWithError,
              countToasts, countNotifies, isToastCall, isNotifyCall]
          | ok res =>
            cases res with
            | false =>
              simp [runMain, sessionCancelled, h1, h2, h3, h4, countToasts,
                countNotifies, isToastCall, isNotifyCall]
            | true =>
              cases h5 : env.registerOutcome with
              | some msg =>
                simp [runMain, sessionCancelled, h1, h2, h3, h4, h5,
                  endWithError, countToasts, countNotifies, isToastCall,
                  isNotifyCall]
              | none =>
                simp [runMain, sessionCancelled, h1, h2, h3, h4, h5, h,
                  countToasts, countNotifies, isToastCall, isNotifyCall]
  · intro msg h5 hconf
    unfold sessionConfirmed at hconf
    cases h1 : select_expense_type env.selectProc with
    | error e => rw [h1] at hconf; simp at hconf
    | ok t =>
      rw [h1] at hconf
      dsimp only at hconf
      cases h2 : enter_expense_amount t env.amountProc with
      | error e => rw [h2] at hconf; simp at hconf
      | ok a =>
        rw [h2] at hconf
        dsimp only at hconf
        cases h3 : enter_expense_memo t env.memoProc with
        | error e => rw [h3] at hconf; simp at hconf
        | ok m =>
          rw [h3] at hconf
          dsimp only at hconf
          cases h4 : confirmation t a m env.confirmProc with
          | error e => rw [h4] at hconf; simp at hconf
          | ok res =>
            rw [h4] at hconf
            simp at hconf
            subst hconf
            simp [runMain, h1, h2, h3, h4, h5, endWithError, countToasts,
              countNotifies, isToastCall, isNotifyCall]

/-- Witness for C6 amended: the one-notification count at the
end-to-end success scenario, and the unconditional register-raises
conjunct at a session whose toast subprocess would itself raise. -/
theorem outcome_notification_spec_witness :
    (countToasts (runMain envYes).1 + countNotifies (runMain envYes).1 =
      if sessionCancelled envYes then 0 else 1) ∧
    (countNotifies (runMain envRegFail).1 = 1 ∧
      countToasts (runMain envRegFail).1 = 0) :=
  ⟨(outcome_notification_spec envYes).1 rfl,
    (outcome_notification_spec envRegFail).2 "boom" rfl rfl⟩

/-- C7 counterexample: a concrete session in which registration
succeeds but the toast subprocess raises; the toast failure escalates
out of toast into main's handler and is reported through the failure
alert as the primary error of the session, even though registration
succeeded. -/
theorem notification_best_effort_cex :
    Event.registerCall "CF (2023年度)" "食費" 800 "" ∈ (runMain envToastFail).1 ∧
    Event.notifyCall ALERT_TITLE (pyErrMsg PyError.subprocessError) ∈
      (runMain envToastFail).1 := by decide

/-- C7 amended: toast and notify contain no exception handling, so
they are not best-effort: when the toast subprocess raises after a
successful registration, the failure escalates into main's top-level
handler, which invokes the failure alert — reporting the notification
failure as the session's primary error — and when the notify
subprocess raises inside that handler, the failure escapes main
uncaught. -/
theorem notification_failures_escalate (env : Env)
    (h1 : sessionConfirmed env = true) (h2 : env.registerOutcome = none)
    (h3 : env.toastOk = false) :
    (∃ c, Event.toastCall c ∈ (runMain env).1) ∧
    Event.notifyCall ALERT_TITLE (pyErrMsg PyError.subprocessError) ∈
      (runMain env).1 ∧
    (runMain env).2 =
      (if env.notifyOk then none else some PyError.subprocessError) := by
  unfold sessionConfirmed at h1
  cases hs : select_expense_type env.selectProc with
  | error e => rw [hs] at h1; simp at h1
  | ok t =>
    rw [hs] at h1
    dsimp only at h1
    cases ha : enter_expense_amount t env.amountProc with
    | error e => rw [ha] at h1; simp at h1
    | ok a =>
      rw [ha] at h1
      dsimp only at h1
      cases hm : enter_expense_memo t env.memoProc with
      | error e => rw [hm] at h1; simp at h1
      | ok m =>
        rw [hm] at h1
        dsimp only at h1
        cases hcf : confirmation t a m env.confirmProc with
        | error e => rw [hcf] at h1; simp at h1
        | ok res =>
          rw [hcf] at h1
          simp at h1
          subst h1
          refine ⟨⟨toastContent t a m, ?_⟩, ?_, ?_⟩ <;>
            simp [runMain, hs, ha, hm, hcf, h2, h3, endWithError]

/-- Witness for C7 amended at the concrete toast-failure session. -/
theorem notification_failures_escalate_witness :
    (∃ c, Event.toastCall c ∈ (runMain envToastFail).1) ∧
    Event.notifyCall ALERT_TITLE (pyErrMsg PyError.subprocessError) ∈
      (runMain envToastFail).1 ∧
    (runMain envToastFail).2 =
      (if envToastFail.notifyOk then none else some PyError.subprocessError) :=
  notification_failures_escalate envToastFail rfl rfl rfl

/-- C8: in the end-to-end scenario with date 2024-02-10, category
食費, amount reply 800, empty memo and confirmation yes, the
persistence collaborator is invoked for the ledger CF (2023年度) with
the arguments (食費, 800, empty memo), a toast whose text contains the
segment 食費, 800円 is invoked, and main returns normally. -/
theorem end_to_end_success :
    Event.registerCall "CF (2023年度)" "食費" 800 "" ∈ (runMain envYes).1 ∧
    Event.toastCall "家計簿への登録が完了しました。 食費, 800円" ∈ (runMain envYes).1 ∧
    strContains "家計簿への登録が完了しました。 食費, 800円" "食費, 800円" = true ∧
    (runMain envYes).2 = none := by decide

/-- C10: the amount step accepts everything Python int() accepts:
surrounding whitespace, an explicit sign, and non-ASCII decimal digits
such as the fullwidth forms; in particular a negative amount passes
validation and is handed to the persistence collaborator unchanged. -/
theorem python_int_leniency :
    pyInt "1500" = some 1500 ∧ pyInt " 1500 " = some 1500 ∧
    pyInt "\t42\n" = some 42 ∧ pyInt "+5" = some 5 ∧
    pyInt "-300" = some (-300) ∧ pyInt "１５０" = some 150 ∧
    enter_expense_amount "食費" (ProcResult.completed 0 "\x7b\"text\": \"-300\"\x7d") =
      Except.ok (-300) ∧
    Event.registerCall "CF (2023年度)" "食費" (-300) "" ∈ (runMain envNeg).1 :=
  ⟨by decide, by decide, by decide, by decide, by decide, by decide, rfl,
    by decide⟩

end Expense
